import Mathlib

/-!
Shallow embedding of the escrow-checkout and usage-metering core of the
vendor-server backend (TypeScript sources: src/services/database.ts,
src/services/meter.ts, src/services/wallets.ts,
src/offers/001_amazon_storage/index.ts, and the SQL schema).

Modelling conventions:
- USD amounts (the JS "number" values produced by Number(formatUnits(x, 6)))
  are modelled as exact rationals; raw ERC-20 token amounts (JS BigInt with
  6 decimals) are modelled as Int.
- The Postgres instance is a record of three tables, each a list of rows in
  insertion order. UNIQUE constraints from the schema are enforced by the
  insert operations, which fail exactly when the constraint would be violated
  (a failing insert throws in TS, surfaced here as Except.error).
- External effects (chain reads, transaction submission) are passed in as an
  environment record holding each call's outcome, so that one run of an
  embedded handler corresponds to one run of the TS handler against fixed
  chain behaviour.
-/

/-- Row of the checkout_wallets table (fields read or written by the embedded
operations; column names follow the schema). -/
structure CheckoutWallet where
  id : Nat
  evm_address : Nat
  private_key : Nat
  latest_usd_balance : ℚ
  created_at : Nat
  updated_at : Nat
  purchase_id : Option Nat
  offramp_evm_address : Option Nat
  offer_id : Nat
  checkout_flow_id : Nat
  checkout_session_id : Nat
  deriving Repr, DecidableEq

/-- Row of the customer_purchases table (fields read or written by the
embedded operations; column names follow the schema). -/
structure CustomerPurchase where
  id : Nat
  wallet_id : Nat
  officex_purchase_id : Nat
  checkout_session_id : Nat
  customer_billing_api_key : Nat
  vendor_billing_api_key : Nat
  balance : ℚ
  balance_low_trigger : ℚ
  balance_critical_trigger : ℚ
  balance_termination_trigger : ℚ
  created_at : Nat
  updated_at : Nat
  deriving Repr, DecidableEq

/-- Row of the usage_records table. -/
structure UsageRecord where
  purchase_id : Nat
  timestamp : Nat
  usage_amount : ℚ
  usage_unit : String
  billed_amount : ℚ
  deriving Repr, DecidableEq

/-- The persistent database state: the three tables the core operates on. -/
structure DB where
  checkout_wallets : List CheckoutWallet
  customer_purchases : List CustomerPurchase
  usage_records : List UsageRecord
  deriving Repr, DecidableEq

/-- SELECT * FROM checkout_wallets WHERE checkout_session_id = $1 (first row). -/
def getCheckoutWalletByCheckoutSessionID (db : DB) (sid : Nat) : Option CheckoutWallet :=
  db.checkout_wallets.find? (fun w => w.checkout_session_id == sid)

/-- SELECT * FROM checkout_wallets WHERE purchase_id = $1 (first row). -/
def getCheckoutWalletByPurchaseId (db : DB) (pid : Nat) : Option CheckoutWallet :=
  db.checkout_wallets.find? (fun w => w.purchase_id == some pid)

/-- SELECT * FROM customer_purchases WHERE id = $1 (first row). -/
def getCustomerPurchaseById (db : DB) (pid : Nat) : Option CustomerPurchase :=
  db.customer_purchases.find? (fun p => p.id == pid)

/-- A checkout_wallets row after SET latest_usd_balance = $bal, updated_at = $now. -/
def setWalletBalanceRow (w : CheckoutWallet) (bal : ℚ) (now : Nat) : CheckoutWallet :=
  { w with latest_usd_balance := bal, updated_at := now }

/-- DatabaseService.updateCheckoutWallet at the call sites of validate and
finalize, which always pass exactly latest_usd_balance and updated_at:
UPDATE checkout_wallets SET latest_usd_balance = $2, updated_at = $3
WHERE id = $1 RETURNING *. Returns none when no row matches (TS returns null). -/
def updateCheckoutWalletBalance (db : DB) (wid : Nat) (bal : ℚ) (now : Nat) :
    Option (CheckoutWallet × DB) :=
  match db.checkout_wallets.find? (fun w => w.id == wid) with
  | none => none
  | some w =>
      some (setWalletBalanceRow w bal now,
        { db with checkout_wallets :=
            db.checkout_wallets.map (fun x =>
              if x.id == wid then setWalletBalanceRow x bal now else x) })

/-- UNIQUE / PRIMARY KEY constraints of customer_purchases from the schema:
id (PK), wallet_id, officex_purchase_id, checkout_session_id,
customer_billing_api_key, vendor_billing_api_key. -/
def purchaseInsertConflict (db : DB) (p : CustomerPurchase) : Bool :=
  db.customer_purchases.any (fun q =>
    q.id == p.id || q.wallet_id == p.wallet_id ||
    q.officex_purchase_id == p.officex_purchase_id ||
    q.checkout_session_id == p.checkout_session_id ||
    q.customer_billing_api_key == p.customer_billing_api_key ||
    q.vendor_billing_api_key == p.vendor_billing_api_key)

/-- DatabaseService.createCustomerPurchase: INSERT INTO customer_purchases ...
RETURNING *. The pg driver throws on a unique-constraint violation, modelled
as Except.error; on success the row is appended. -/
def createCustomerPurchase (db : DB) (p : CustomerPurchase) :
    Except String (CustomerPurchase × DB) :=
  if purchaseInsertConflict db p then
    Except.error "duplicate key value violates unique constraint"
  else
    Except.ok (p, { db with customer_purchases := db.customer_purchases ++ [p] })

/-- A checkout_wallets row after SET latest_usd_balance = latest_usd_balance - $2. -/
def deductWalletBalanceRow (w : CheckoutWallet) (amount : ℚ) (now : Nat) : CheckoutWallet :=
  { w with latest_usd_balance := w.latest_usd_balance - amount, updated_at := now }

/-- UPDATE checkout_wallets SET latest_usd_balance = latest_usd_balance - $2,
updated_at = now WHERE id = $1 RETURNING latest_usd_balance. Returns the new
balance; none when no row matches. -/
def deductWalletBalance (db : DB) (wid : Nat) (amount : ℚ) (now : Nat) :
    Option (ℚ × DB) :=
  match db.checkout_wallets.find? (fun w => w.id == wid) with
  | none => none
  | some w =>
      some (w.latest_usd_balance - amount,
        { db with checkout_wallets :=
            db.checkout_wallets.map (fun x =>
              if x.id == wid then deductWalletBalanceRow x amount now else x) })

/-- Which balance threshold, if any, the trigger evaluation in
DatabaseService.addUsageRecordAndDeductBalance reports for the new balance. -/
inductive TriggerReport where
  | terminationTrigger
  | criticalTrigger
  | lowTrigger
  | noTrigger
  deriving Repr, DecidableEq

/-- The if / else-if chain over the new balance in
DatabaseService.addUsageRecordAndDeductBalance: termination checked first,
then critical, then low; each comparison is ≤ (at or below). -/
def evalBalanceTriggers (bal term crit low : ℚ) : TriggerReport :=
  if bal ≤ term then TriggerReport.terminationTrigger
  else if bal ≤ crit then TriggerReport.criticalTrigger
  else if bal ≤ low then TriggerReport.lowTrigger
  else TriggerReport.noTrigger

/-- DatabaseService.addUsageRecordAndDeductBalance: one BEGIN/COMMIT
transaction that inserts the usage record and decrements the linked wallet's
latest_usd_balance; any thrown error (wallet or purchase not found, balance
update matching no row) triggers ROLLBACK, so the returned database equals the
input database in every error case. The inserted row becomes visible at
COMMIT, modelled by appending it on the success path only. -/
def addUsageRecordAndDeductBalance (db : DB) (usage : UsageRecord) (now : Nat) :
    Except String (UsageRecord × TriggerReport) × DB :=
  match getCheckoutWalletByPurchaseId db usage.purchase_id with
  | none => (Except.error "Wallet not found for balance update", db)
  | some wallet =>
      match getCustomerPurchaseById db usage.purchase_id with
      | none => (Except.error "Customer purchase not found for balance update", db)
      | some purchase =>
          match deductWalletBalance db wallet.id usage.billed_amount now with
          | none => (Except.error "Customer purchase not found for balance update", db)
          | some (newBalance, db1) =>
              (Except.ok (usage,
                 evalBalanceTriggers newBalance
                   purchase.balance_termination_trigger
                   purchase.balance_critical_trigger
                   purchase.balance_low_trigger),
               { db1 with usage_records := db1.usage_records ++ [usage] })

/-- MeterService.recordUsage delegates directly to
DatabaseService.addUsageRecordAndDeductBalance. -/
def recordUsage (db : DB) (usage : UsageRecord) (now : Nat) :
    Except String (UsageRecord × TriggerReport) × DB :=
  addUsageRecordAndDeductBalance db usage now

/-- Outcome status of an on-chain transaction receipt. -/
inductive TxStatus where
  | success
  | reverted
  deriving Repr, DecidableEq

/-- Constant from src/offers/001_amazon_storage/index.ts:
minTargetBalance = BigInt(0.5 * 1e6) raw USDC units. -/
def minTargetBalance : Int := 500000

/-- Constant from src/offers/001_amazon_storage/index.ts:
gas_transfer_buffer = BigInt(0.4 * 1e6) raw USDC units. -/
def gas_transfer_buffer : Int := 400000

/-- Number(formatUnits(v, 6)): raw 6-decimal token units to USD. -/
def formatUnits6 (v : Int) : ℚ := (v : ℚ) / 1000000

/-- balance_low_trigger assigned by finalizeCheckout:
Math.min(10, balance / 5). -/
def balanceLowTrigger (b : ℚ) : ℚ := min 10 (b / 5)

/-- balance_critical_trigger assigned by finalizeCheckout:
Math.min(2, balance / 10). -/
def balanceCriticalTrigger (b : ℚ) : ℚ := min 2 (b / 10)

/-- balance_termination_trigger assigned by finalizeCheckout:
Math.max(0.05, balance / 100). -/
def balanceTerminationTrigger (b : ℚ) : ℚ := max (1 / 20) (b / 100)

/-- Fixed chain behaviour and fresh identifiers for one run of
finalizeCheckout: the observed raw token balance, the outcome of
sendFromGasTank (Except.error models a thrown error, otherwise the receipt
status), the outcome of sendERC20Transfer, the clock, and the generated ids
and API keys. -/
structure FinalizeEnv where
  token_balance : Int
  gas_result : Except Unit TxStatus
  sweep_result : Except Unit TxStatus
  now : Nat
  new_purchase_id : Nat
  officex_purchase_id : Nat
  customer_billing_api_key : Nat
  vendor_billing_api_key : Nat
  deriving Repr

/-- Control-flow outcome of finalizeCheckout, one constructor per return
path of the TS handler. -/
inductive FinalizeOutcome where
  | walletNotFound
  | alreadyLinked (pid : Nat)
  | insufficientFunds
  | walletUpdateFailed
  | offrampMissing
  | gasTransferFailed
  | internalError
  | sweepFailed
  | success (purchase_id : Nat) (amount_swept : ℚ)
  deriving Repr, DecidableEq

/-- Result of one finalizeCheckout run: the response path taken, the database
afterwards, and the alertVendorError messages raised along the way. -/
structure FinalizeResult where
  outcome : FinalizeOutcome
  db : DB
  alerts : List String
  deriving Repr, DecidableEq

/-- The CustomerPurchase record literal built inside finalizeCheckout (step
3 of the handler): wallet_id from the session's wallet, balance and
thresholds derived from the updated wallet's post-buffer balance, ids and
API keys freshly generated. -/
def finalizeNewPurchase (env : FinalizeEnv) (wallet updatedWallet : CheckoutWallet)
    (checkout_session_id : Nat) : CustomerPurchase :=
  { id := env.new_purchase_id
    wallet_id := wallet.id
    officex_purchase_id := env.officex_purchase_id
    checkout_session_id := checkout_session_id
    customer_billing_api_key := env.customer_billing_api_key
    vendor_billing_api_key := env.vendor_billing_api_key
    balance := updatedWallet.latest_usd_balance
    balance_low_trigger := balanceLowTrigger updatedWallet.latest_usd_balance
    balance_critical_trigger := balanceCriticalTrigger updatedWallet.latest_usd_balance
    balance_termination_trigger := balanceTerminationTrigger updatedWallet.latest_usd_balance
    created_at := env.now
    updated_at := env.now }

/-- finalizeCheckout from src/offers/001_amazon_storage/index.ts, step by
step: look up the wallet by checkout session; reject if already linked;
reject if the observed balance is below minTargetBalance; persist the
post-buffer balance on the wallet; require an offramp address; send gas from
the gas tank (a thrown error or a reverted receipt both end in the catch
branch, which alerts the vendor and returns 500); create the
CustomerPurchase record (a unique-constraint throw is caught by the outer
catch as an internal error); then sweep the full observed token balance
(amountToSweep = Number(formatUnits(token_balance, 6))) to the offramp
address — a thrown sweep alerts the vendor, a reverted sweep returns 500
without an alert, and in both cases the already-inserted purchase row
remains. -/
def finalizeCheckout (env : FinalizeEnv) (db : DB) (checkout_session_id : Nat) :
    FinalizeResult :=
  match getCheckoutWalletByCheckoutSessionID db checkout_session_id with
  | none => ⟨FinalizeOutcome.walletNotFound, db, []⟩
  | some wallet =>
      match wallet.purchase_id with
      | some pid => ⟨FinalizeOutcome.alreadyLinked pid, db, []⟩
      | none =>
          if env.token_balance < minTargetBalance then
            ⟨FinalizeOutcome.insufficientFunds, db, []⟩
          else
            match updateCheckoutWalletBalance db wallet.id
                (formatUnits6 (env.token_balance - gas_transfer_buffer)) env.now with
            | none => ⟨FinalizeOutcome.walletUpdateFailed, db, []⟩
            | some (updatedWallet, db1) =>
                match wallet.offramp_evm_address with
                | none => ⟨FinalizeOutcome.offrampMissing, db1, []⟩
                | some _ =>
                    match env.gas_result with
                    | Except.error _ =>
                        ⟨FinalizeOutcome.gasTransferFailed, db1,
                         ["Failed to send gas to wallet"]⟩
                    | Except.ok TxStatus.reverted =>
                        ⟨FinalizeOutcome.gasTransferFailed, db1,
                         ["Failed to send gas to wallet"]⟩
                    | Except.ok TxStatus.success =>
                        match createCustomerPurchase db1
                            (finalizeNewPurchase env wallet updatedWallet
                              checkout_session_id) with
                        | Except.error _ => ⟨FinalizeOutcome.internalError, db1, []⟩
                        | Except.ok (createdPurchase, db2) =>
                            let amountToSweep := formatUnits6 env.token_balance
                            match env.sweep_result with
                            | Except.ok TxStatus.success =>
                                ⟨FinalizeOutcome.success createdPurchase.id amountToSweep,
                                 db2, []⟩
                            | Except.ok TxStatus.reverted =>
                                ⟨FinalizeOutcome.sweepFailed, db2, []⟩
                            | Except.error _ =>
                                ⟨FinalizeOutcome.sweepFailed, db2,
                                 ["Failed to transfer USDC from wallet to offramp"]⟩

/-- Fixed chain behaviour for one run of validateCheckout: the observed raw
token balance and the clock. -/
structure ValidateEnv where
  token_balance : Int
  now : Nat
  deriving Repr, DecidableEq

/-- Control-flow outcome of validateCheckout, one constructor per return
path of the TS handler. -/
inductive ValidateOutcome where
  | walletNotFound
  | insufficientFunds
  | walletUpdateFailed
  | verified
  deriving Repr, DecidableEq

/-- Result of one validateCheckout run. -/
structure ValidateResult where
  outcome : ValidateOutcome
  db : DB
  deriving Repr, DecidableEq

/-- validateCheckout from src/offers/001_amazon_storage/index.ts: look up the
wallet; if the observed balance is below minTargetBalance, return the
insufficient-funds response immediately — the balance write happens only
after that check, on the success path. -/
def validateCheckout (env : ValidateEnv) (db : DB) (checkout_session_id : Nat) :
    ValidateResult :=
  match getCheckoutWalletByCheckoutSessionID db checkout_session_id with
  | none => ⟨ValidateOutcome.walletNotFound, db⟩
  | some wallet =>
      if env.token_balance < minTargetBalance then
        ⟨ValidateOutcome.insufficientFunds, db⟩
      else
        match updateCheckoutWalletBalance db wallet.id
            (formatUnits6 env.token_balance) env.now with
        | none => ⟨ValidateOutcome.walletUpdateFailed, db⟩
        | some (_, db1) => ⟨ValidateOutcome.verified, db1⟩

/-- Chain behaviour visible to one getTokenBalance call in
src/services/wallets.ts: whether the RPC transport is reachable at all, the
outcome of the decimals read, and the outcome of the balanceOf read
(Except.error models a thrown error). -/
structure ChainReadEnv where
  client_reachable : Bool
  decimals_read : Except Unit Nat
  balance_read : Except Unit Int
  deriving Repr

/-- Body of the try block of getTokenBalance: create the public client and
perform the two contract reads; every failure mode, including an unreachable
RPC endpoint, surfaces as a thrown error. -/
def getTokenBalanceAttempt (env : ChainReadEnv) : Except Unit Int :=
  if env.client_reachable = false then Except.error ()
  else
    match env.decimals_read with
    | Except.error e => Except.error e
    | Except.ok _ =>
        match env.balance_read with
        | Except.error e => Except.error e
        | Except.ok balanceRaw => Except.ok balanceRaw

/-- getTokenBalance from src/services/wallets.ts: the whole body sits in one
try/catch whose catch branch logs a warning and returns BigInt(0), so the
function is total and never propagates a failure to its caller. -/
def getTokenBalance (env : ChainReadEnv) : Int :=
  match getTokenBalanceAttempt env with
  | Except.ok v => v
  | Except.error _ => 0

/-- Columns of the usage_records table as created by the schema the code
writes to (checkout_wallets-era schema: usage_unit and billed_amount). -/
def usage_records_table_columns : List String :=
  ["id", "purchase_id", "timestamp", "usage_amount", "usage_unit",
   "billed_amount", "description", "metadata"]

/-- Column list of the INSERT INTO usage_records statement in
DatabaseService.addUsageRecordAndDeductBalance. -/
def usageInsertColumns : List String :=
  ["purchase_id", "timestamp", "usage_amount", "usage_unit", "billed_amount",
   "description", "metadata"]

/-- Columns of usage_records referenced by the SELECT in
DatabaseService.getHistoricalBilling: time_bucket($1, timestamp),
SUM(usage_amount), SUM(cost_incurred) AS total_billed_amount, purchase_id. -/
def historicalBillingQueryColumns : List String :=
  ["timestamp", "usage_amount", "cost_incurred", "purchase_id"]

/-- A SQL statement binds successfully only if every column it references
exists in the table. -/
def queryColumnsResolve (referenced tableCols : List String) : Bool :=
  referenced.all (fun c => tableCols.contains c)

/-- ASCII lowercasing of interval.toLowerCase(), written over the character
list so that it evaluates inside the kernel. -/
def toLowerAscii (s : String) : String :=
  String.mk (s.data.map (fun c =>
    if 65 ≤ c.toNat ∧ c.toNat ≤ 90 then Char.ofNat (c.toNat + 32) else c))

/-- The switch in MeterService.getHistoricalBillingReport mapping a named
interval to a TimescaleDB bucket width, with raw pass-through as default. -/
def mapIntervalToDbInterval (interval : String) : String :=
  let s := toLowerAscii interval
  if s = "daily" then "1 day"
  else if s = "hourly" then "1 hour"
  else if s = "weekly" then "1 week"
  else if s = "monthly" then "1 month"
  else if s = "yearly" then "1 year"
  else interval

/-- Columns of the customer_purchases table as created by the live schema.
Note the table stores NO balance column: the TS object's balance field is
derived from the linked wallet and is dropped by the createCustomerPurchase
INSERT column list as well. -/
def customer_purchases_table_columns : List String :=
  ["id", "wallet_id", "officex_purchase_id", "checkout_session_id", "title",
   "description", "customer_user_id", "customer_org_id", "customer_org_host",
   "vendor_id", "price_line", "customer_billing_api_key",
   "vendor_billing_api_key", "vendor_notes", "balance_low_trigger",
   "balance_critical_trigger", "balance_termination_trigger", "created_at",
   "updated_at", "tracer", "metadata"]

/-- The Partial of CustomerPurchase passed to
DatabaseService.updateCustomerPurchase at its one call site (topupCheckout):
an optional balance and an optional updated_at. -/
structure PurchaseUpdates where
  balance : Option ℚ := none
  updated_at : Option Nat := none
  deriving Repr, DecidableEq

/-- Object.keys(updates) in insertion order for the fields modelled. -/
def purchaseUpdateKeys (u : PurchaseUpdates) : List String :=
  (match u.balance with | some _ => ["balance"] | none => []) ++
  (match u.updated_at with | some _ => ["updated_at"] | none => [])

/-- JS truthiness of updates.updated_at, the condition guarding the appended
updated_at fragment (0 is falsy in JS). -/
def hasTruthyUpdatedAt (u : PurchaseUpdates) : Bool :=
  match u.updated_at with
  | some n => n != 0
  | none => false

/-- The statement DatabaseService.updateCustomerPurchase builds before
execution, for an arbitrary updates object given by its key list: the
fields are the "key = $i" fragments with placeholders $2..$(n+1), and the
value count is 1 (the id) plus one per key, plus one more when
updates.updated_at is falsy — the code evaluates
fields + ", updated_at = $m" without assigning the result, discarding the
fragment, yet still pushes Date.now() onto values. Returns none for an
empty updates object (the code then performs a plain get instead of an
UPDATE). -/
def buildUpdateCustomerPurchase (updateKeys : List String)
    (truthyUpdatedAt : Bool) : Option (List String × Nat) :=
  if updateKeys.isEmpty then none
  else
    let fields := ((List.range updateKeys.length).zip updateKeys).map
      (fun ik => ik.2 ++ " = $" ++ toString (ik.1 + 2))
    let numValues := 1 + updateKeys.length
    if truthyUpdatedAt then some (fields, numValues)
    else some (fields, numValues + 1)

/-- The only SET clause of the modelled updates shape that can execute
against the live customer_purchases table: balance is not a column of that
table, so a statement naming it never gets past Parse, and the reachable
update is the updated_at assignment. -/
def applyUpdatedAtRow (p : CustomerPurchase) (u : PurchaseUpdates) : CustomerPurchase :=
  match u.updated_at with
  | some t => { p with updated_at := t }
  | none => p

/-- DatabaseService.updateCustomerPurchase at its one call site shape: build
the statement (empty updates short-circuit to a get); Postgres then
resolves the SET columns against the live customer_purchases table — which
has no balance column — and rejects a statement naming a missing column at
Parse; next it rejects a bind whose value count differs from the statement's
placeholder count (one too many whenever updated_at is falsy). Either
rejection is a thrown error leaving the table unchanged; otherwise the
UPDATE applies to the matching row and RETURNING * yields it (null when no
row matches). -/
def updateCustomerPurchase (db : DB) (id : Nat) (u : PurchaseUpdates) (_now : Nat) :
    Except String (Option CustomerPurchase) × DB :=
  match buildUpdateCustomerPurchase (purchaseUpdateKeys u) (hasTruthyUpdatedAt u) with
  | none => (Except.ok (getCustomerPurchaseById db id), db)
  | some fv =>
      if queryColumnsResolve (purchaseUpdateKeys u) customer_purchases_table_columns
          = false then
        (Except.error "column of customer_purchases does not exist", db)
      else if 1 + fv.1.length ≠ fv.2 then
        (Except.error "bind message supplies more parameters than prepared statement requires", db)
      else
        match db.customer_purchases.find? (fun p => p.id == id) with
        | none => (Except.ok none, db)
        | some p =>
            (Except.ok (some (applyUpdatedAtRow p u)),
             { db with customer_purchases :=
                 db.customer_purchases.map (fun q =>
                   if q.id == id then applyUpdatedAtRow q u else q) })

/-- Uniqueness invariant of the wallet-to-purchase link: no two rows of
customer_purchases share a wallet_id. -/
def walletLinkUnique (db : DB) : Prop :=
  db.customer_purchases.Pairwise (fun p q => p.wallet_id ≠ q.wallet_id)

/-- Test fixture: an unlinked checkout wallet reachable under checkout
session 10, with an offramp address configured. -/
def walletA : CheckoutWallet :=
  { id := 1, evm_address := 2, private_key := 3, latest_usd_balance := 7,
    created_at := 0, updated_at := 0, purchase_id := none,
    offramp_evm_address := some 9, offer_id := 4, checkout_flow_id := 5,
    checkout_session_id := 10 }

/-- Test fixture: a database holding only walletA. -/
def dbA : DB := ⟨[walletA], [], []⟩

/-- Test fixture: finalize environment where the wallet holds $12.00 of USDC
and both on-chain transactions succeed. -/
def envAllGood : FinalizeEnv :=
  { token_balance := 12000000, gas_result := Except.ok TxStatus.success,
    sweep_result := Except.ok TxStatus.success, now := 1000,
    new_purchase_id := 77, officex_purchase_id := 88,
    customer_billing_api_key := 201, vendor_billing_api_key := 202 }

/-- Test fixture: like envAllGood but the sweep transaction throws. -/
def envSweepThrows : FinalizeEnv :=
  { envAllGood with sweep_result := Except.error () }

/-- Test fixture: like envAllGood but the observed balance is exactly the
$0.50 minimum target, so the post-buffer balance is $0.10. -/
def envMinimumDeposit : FinalizeEnv :=
  { envAllGood with token_balance := 500000 }

/-- Test fixture: a second finalize attempt against the same session after a
deposit of $5.00, with fresh generated identifiers. -/
def envSecondAttempt : FinalizeEnv :=
  { envAllGood with
      token_balance := 5000000,
      new_purchase_id := 78,
      officex_purchase_id := 89,
      customer_billing_api_key := 203,
      vendor_billing_api_key := 204 }

/-- Test fixture: a wallet linked to purchase 50. -/
def walletLinked : CheckoutWallet :=
  { walletA with purchase_id := some 50 }

/-- Test fixture: the purchase row linked to walletLinked, with a $1.00
balance on the wallet and a low trigger of $0.80. -/
def purchase50 : CustomerPurchase :=
  { id := 50, wallet_id := 1, officex_purchase_id := 88,
    checkout_session_id := 10, customer_billing_api_key := 201,
    vendor_billing_api_key := 202, balance := 1,
    balance_low_trigger := 4 / 5, balance_critical_trigger := 1 / 5,
    balance_termination_trigger := 1 / 20, created_at := 0, updated_at := 0 }

/-- Test fixture: a database where wallet 1 (balance $1.00) is linked to
purchase 50. -/
def dbLinked : DB := ⟨[{ walletLinked with latest_usd_balance := 1 }], [purchase50], []⟩

/-- Test fixture: a $0.25 usage event against purchase 50. -/
def usageFixture : UsageRecord :=
  { purchase_id := 50, timestamp := 5, usage_amount := 5, usage_unit := "GB",
    billed_amount := 1 / 4 }

example : (finalizeCheckout envAllGood dbA 10).outcome = FinalizeOutcome.success 77 12 := by
  norm_num [finalizeCheckout, finalizeNewPurchase, envAllGood, dbA, walletA,
    getCheckoutWalletByCheckoutSessionID, updateCheckoutWalletBalance, setWalletBalanceRow,
    createCustomerPurchase, purchaseInsertConflict, formatUnits6, minTargetBalance,
    gas_transfer_buffer, List.find?]

example : (validateCheckout ⟨300000, 99⟩ dbA 10).outcome = ValidateOutcome.insufficientFunds := rfl

example : (recordUsage dbLinked usageFixture 3).1 = Except.ok (usageFixture, TriggerReport.lowTrigger) := by
  norm_num [recordUsage, addUsageRecordAndDeductBalance, dbLinked, walletLinked, walletA,
    purchase50, usageFixture, getCheckoutWalletByPurchaseId, getCustomerPurchaseById,
    deductWalletBalance, deductWalletBalanceRow, evalBalanceTriggers, List.find?]

theorem updateCheckoutWalletBalance_some_eq (db : DB) (wid : Nat) (bal : ℚ) (now : Nat)
    (w' : CheckoutWallet) (db' : DB)
    (h : updateCheckoutWalletBalance db wid bal now = some (w', db')) :
    db'.checkout_wallets = db.checkout_wallets.map (fun x =>
      if x.id == wid then setWalletBalanceRow x bal now else x) ∧
    db'.customer_purchases = db.customer_purchases ∧
    db'.usage_records = db.usage_records ∧
    w'.latest_usd_balance = bal ∧ w'.updated_at = now := by
  unfold updateCheckoutWalletBalance at h
  split at h
  · exact absurd h (by simp)
  · simp only [Option.some.injEq, Prod.mk.injEq] at h
    obtain ⟨h1, h2⟩ := h
    subst h2
    subst h1
    exact ⟨rfl, rfl, rfl, rfl, rfl⟩

theorem createCustomerPurchase_ok_eq (db : DB) (p q : CustomerPurchase) (db' : DB)
    (h : createCustomerPurchase db p = Except.ok (q, db')) :
    q = p ∧ db'.customer_purchases = db.customer_purchases ++ [p] ∧
    db'.checkout_wallets = db.checkout_wallets ∧
    db'.usage_records = db.usage_records ∧
    purchaseInsertConflict db p = false := by
  unfold createCustomerPurchase at h
  split at h
  · exact absurd h (by simp)
  · rename_i hc
    simp only [Except.ok.injEq, Prod.mk.injEq] at h
    obtain ⟨h1, h2⟩ := h
    subst h2
    exact ⟨h1.symm, rfl, rfl, rfl, by simpa using hc⟩

theorem deductWalletBalance_some_eq (db : DB) (wid : Nat) (amount : ℚ) (now : Nat)
    (nb : ℚ) (db' : DB) (h : deductWalletBalance db wid amount now = some (nb, db')) :
    (∃ w, db.checkout_wallets.find? (fun x => x.id == wid) = some w ∧
       nb = w.latest_usd_balance - amount) ∧
    db'.checkout_wallets = db.checkout_wallets.map (fun x =>
      if x.id == wid then deductWalletBalanceRow x amount now else x) ∧
    db'.customer_purchases = db.customer_purchases ∧
    db'.usage_records = db.usage_records := by
  unfold deductWalletBalance at h
  split at h
  · exact absurd h (by simp)
  · rename_i w hw
    simp only [Option.some.injEq, Prod.mk.injEq] at h
    obtain ⟨h1, h2⟩ := h
    subst h2
    exact ⟨⟨w, hw, h1.symm⟩, rfl, rfl, rfl⟩

/-- C9 counterexample: a wallet really holding 123456 raw token units behind
a totally unreachable chain client is reported as holding zero — the failure
is not surfaced to the caller, contradicting the claim that an unreachable
client is a hard failure; the same read with a reachable client returns the
true balance. -/
theorem getTokenBalance_unreachable_client_counterexample :
    getTokenBalance ⟨false, Except.ok 6, Except.ok 123456⟩ = 0 ∧
    getTokenBalance ⟨true, Except.ok 6, Except.ok 123456⟩ = 123456 :=
  ⟨rfl, rfl⟩

/-- C9 amended: getTokenBalance wraps its whole body — client creation and
both contract reads — in one catch-all, so every failure mode, including a
totally unreachable chain client, yields zero for that token, and no failure
is ever surfaced to the caller; only a fully successful read returns the
observed raw balance. -/
theorem getTokenBalance_never_surfaces_failure (env : ChainReadEnv) :
    (env.client_reachable = false → getTokenBalance env = 0) ∧
    (∀ e, getTokenBalanceAttempt env = Except.error e → getTokenBalance env = 0) ∧
    (∀ v, getTokenBalanceAttempt env = Except.ok v → getTokenBalance env = v) := by
  refine ⟨?_, ?_, ?_⟩
  · intro h; simp [getTokenBalance, getTokenBalanceAttempt, h]
  · intro e h; unfold getTokenBalance; rw [h]
  · intro v h; unfold getTokenBalance; rw [h]

/-- C9 amended witness: with an unreachable client the returned balance is
zero. -/
theorem getTokenBalance_never_surfaces_failure_witness :
    getTokenBalance ⟨false, Except.ok 6, Except.ok 55⟩ = 0 :=
  (getTokenBalance_never_surfaces_failure ⟨false, Except.ok 6, Except.ok 55⟩).1 rfl

/-- C7: the named intervals map to the documented fixed bucket widths, and
the INSERT written by recordUsage resolves against the usage_records table;
but the aggregation SELECT of getHistoricalBilling references cost_incurred,
a column that does not exist in that table (the live column is
billed_amount), so the historical-billing query cannot bind against the
table the usage writer populates and every call errors instead of returning
per-bucket sums. -/
theorem getHistoricalBilling_references_missing_column :
    mapIntervalToDbInterval "hourly" = "1 hour" ∧
    mapIntervalToDbInterval "daily" = "1 day" ∧
    mapIntervalToDbInterval "weekly" = "1 week" ∧
    mapIntervalToDbInterval "monthly" = "1 month" ∧
    mapIntervalToDbInterval "yearly" = "1 year" ∧
    mapIntervalToDbInterval "15 minutes" = "15 minutes" ∧
    queryColumnsResolve usageInsertColumns usage_records_table_columns = true ∧
    queryColumnsResolve historicalBillingQueryColumns usage_records_table_columns = false ∧
    "cost_incurred" ∈ historicalBillingQueryColumns ∧
    "cost_incurred" ∉ usage_records_table_columns ∧
    "billed_amount" ∈ usage_records_table_columns := by
  decide

theorem balance_column_missing :
    queryColumnsResolve ["balance"] customer_purchases_table_columns = false := by
  decide

theorem balance_updated_at_columns_missing :
    queryColumnsResolve ["balance", "updated_at"] customer_purchases_table_columns
      = false := by
  decide

theorem buildUpdate_balance_falsy :
    buildUpdateCustomerPurchase ["balance"] false = some (["balance = $2"], 3) := rfl

theorem buildUpdate_updated_at_falsy :
    buildUpdateCustomerPurchase ["updated_at"] false
      = some (["updated_at = $2"], 3) := rfl

theorem buildUpdate_balance_updated_at_falsy :
    buildUpdateCustomerPurchase ["balance", "updated_at"] false
      = some (["balance = $2", "updated_at = $3"], 4) := rfl

theorem buildUpdate_balance_updated_at_truthy :
    buildUpdateCustomerPurchase ["balance", "updated_at"] true
      = some (["balance = $2", "updated_at = $3"], 3) := rfl

theorem updateCustomerPurchase_error_of_falsy (db : DB) (id0 : Nat)
    (u : PurchaseUpdates) (now : Nat)
    (hne : purchaseUpdateKeys u ≠ []) (hf : hasTruthyUpdatedAt u = false) :
    (∃ e, (updateCustomerPurchase db id0 u now).1 = Except.error e) ∧
    (updateCustomerPurchase db id0 u now).2 = db := by
  obtain ⟨ub, ut⟩ := u
  cases ub with
  | none =>
      cases ut with
      | none => simp [purchaseUpdateKeys] at hne
      | some t =>
          have ht : t = 0 := by simpa [hasTruthyUpdatedAt] using hf
          subst ht
          refine ⟨⟨"bind message supplies more parameters than prepared statement requires",
            ?_⟩, ?_⟩ <;>
            simp [updateCustomerPurchase, purchaseUpdateKeys, hasTruthyUpdatedAt,
              buildUpdate_updated_at_falsy, queryColumnsResolve,
              customer_purchases_table_columns]
  | some b =>
      cases ut with
      | none =>
          refine ⟨⟨"column of customer_purchases does not exist", ?_⟩, ?_⟩ <;>
            simp [updateCustomerPurchase, purchaseUpdateKeys, hasTruthyUpdatedAt,
              buildUpdate_balance_falsy, balance_column_missing]
      | some t =>
          have ht : t = 0 := by simpa [hasTruthyUpdatedAt] using hf
          subst ht
          refine ⟨⟨"column of customer_purchases does not exist", ?_⟩, ?_⟩ <;>
            simp [updateCustomerPurchase, purchaseUpdateKeys, hasTruthyUpdatedAt,
              buildUpdate_balance_updated_at_falsy, balance_updated_at_columns_missing]

theorem updateCustomerPurchase_balance_column_error (db : DB) (id0 : Nat)
    (u : PurchaseUpdates) (now : Nat) (hb : u.balance.isSome = true) :
    (∃ e, (updateCustomerPurchase db id0 u now).1 = Except.error e) ∧
    (updateCustomerPurchase db id0 u now).2 = db := by
  obtain ⟨ub, ut⟩ := u
  cases ub with
  | none => simp at hb
  | some b =>
      cases ut with
      | none =>
          refine ⟨⟨"column of customer_purchases does not exist", ?_⟩, ?_⟩ <;>
            simp [updateCustomerPurchase, purchaseUpdateKeys, hasTruthyUpdatedAt,
              buildUpdate_balance_falsy, balance_column_missing]
      | some t =>
          cases ht : (t != 0) with
          | false =>
              refine ⟨⟨"column of customer_purchases does not exist", ?_⟩, ?_⟩ <;>
                simp [updateCustomerPurchase, purchaseUpdateKeys, hasTruthyUpdatedAt, ht,
                  buildUpdate_balance_updated_at_falsy, balance_updated_at_columns_missing]
          | true =>
              refine ⟨⟨"column of customer_purchases does not exist", ?_⟩, ?_⟩ <;>
                simp [updateCustomerPurchase, purchaseUpdateKeys, hasTruthyUpdatedAt, ht,
                  buildUpdate_balance_updated_at_truthy, balance_updated_at_columns_missing]

/-- C10: for every non-empty updates object without an updated_at field,
updateCustomerPurchase builds an UPDATE whose bind supplies one more value
than the statement has placeholders (the appended updated_at fragment is
discarded because the string concatenation result is never assigned, while
Date.now() is still pushed onto the values), the call always fails with an
error, and the purchase row is left unchanged; passing updated_at is
therefore necessary for any update to succeed — a non-empty update can only
return without error when a truthy updated_at was supplied. Even then the
function's one call-site shape {balance, updated_at} fails, because balance
is not a column of the live customer_purchases table. -/
theorem updateCustomerPurchase_extra_bind_value (db : DB) (id0 : Nat)
    (u : PurchaseUpdates) (now : Nat) (updateKeys : List String)
    (hk : updateKeys ≠ []) :
    (∀ fields numValues,
      buildUpdateCustomerPurchase updateKeys false = some (fields, numValues) →
      numValues = (1 + fields.length) + 1) ∧
    (purchaseUpdateKeys u ≠ [] → u.updated_at = none →
      (∃ e, (updateCustomerPurchase db id0 u now).1 = Except.error e) ∧
      (updateCustomerPurchase db id0 u now).2 = db) ∧
    (purchaseUpdateKeys u ≠ [] →
      ∀ r, (updateCustomerPurchase db id0 u now).1 = Except.ok r →
        hasTruthyUpdatedAt u = true) ∧
    (u.balance.isSome = true →
      (∃ e, (updateCustomerPurchase db id0 u now).1 = Except.error e) ∧
      (updateCustomerPurchase db id0 u now).2 = db) := by
  refine ⟨?_, ?_, ?_, ?_⟩
  · intro fields numValues h
    cases updateKeys with
    | nil => exact absurd rfl hk
    | cons a l =>
        simp only [buildUpdateCustomerPurchase, List.isEmpty_cons, Bool.false_eq_true,
          if_false, Option.some.injEq, Prod.mk.injEq] at h
        obtain ⟨hfld, hval⟩ := h
        subst hfld
        subst hval
        simp [List.length_map, List.length_zip, List.length_range]
  · intro hne hno
    apply updateCustomerPurchase_error_of_falsy db id0 u now hne
    simp [hasTruthyUpdatedAt, hno]
  · intro hne r hr
    by_contra hft
    have hf : hasTruthyUpdatedAt u = false := by
      cases hv : hasTruthyUpdatedAt u
      · rfl
      · exact absurd hv hft
    obtain ⟨⟨e, he⟩, -⟩ := updateCustomerPurchase_error_of_falsy db id0 u now hne hf
    rw [hr] at he
    exact absurd he (by simp)
  · exact updateCustomerPurchase_balance_column_error db id0 u now

/-- C10 witness: topupCheckout's own updates shape {balance, updated_at},
truthy updated_at included, fails with an error and leaves the database
unchanged. -/
theorem updateCustomerPurchase_extra_bind_value_witness :
    (∃ e, (updateCustomerPurchase dbLinked 50 ⟨some 5, some 7⟩ 9).1 = Except.error e) ∧
    (updateCustomerPurchase dbLinked 50 ⟨some 5, some 7⟩ 9).2 = dbLinked :=
  (updateCustomerPurchase_extra_bind_value dbLinked 50 ⟨some 5, some 7⟩ 9 ["balance"]
    (by decide)).2.2.2 rfl

theorem map_purchase_id_setWalletBalanceRow (l : List CheckoutWallet) (wid : Nat)
    (bal : ℚ) (now : Nat) :
    (l.map (fun x => if x.id == wid then setWalletBalanceRow x bal now else x)).map
      CheckoutWallet.purchase_id = l.map CheckoutWallet.purchase_id := by
  rw [List.map_map]
  congr 1
  funext x
  by_cases h : x.id == wid <;> simp [h, setWalletBalanceRow, Function.comp]

/-- C6 amended: validateCheckout persists the freshly observed balance only
when it meets the minimum target — on the insufficient-funds path (and on
every other non-verified path) the function returns before the write and the
database is untouched; in all cases validate leaves every wallet's
purchase_id linkage and the purchases table unchanged. -/
theorem validateCheckout_frame (env : ValidateEnv) (db : DB) (sid : Nat) :
    ((validateCheckout env db sid).outcome ≠ ValidateOutcome.verified →
      (validateCheckout env db sid).db = db) ∧
    ((validateCheckout env db sid).outcome = ValidateOutcome.verified →
      ¬ env.token_balance < minTargetBalance ∧
      ∃ w, getCheckoutWalletByCheckoutSessionID db sid = some w ∧
        (validateCheckout env db sid).db.checkout_wallets =
          db.checkout_wallets.map (fun x =>
            if x.id == w.id then
              setWalletBalanceRow x (formatUnits6 env.token_balance) env.now
            else x)) ∧
    ((validateCheckout env db sid).db.checkout_wallets.map CheckoutWallet.purchase_id =
      db.checkout_wallets.map CheckoutWallet.purchase_id) ∧
    (validateCheckout env db sid).db.customer_purchases = db.customer_purchases := by
  rcases hw : getCheckoutWalletByCheckoutSessionID db sid with _ | wallet
  · have hr : validateCheckout env db sid = ⟨ValidateOutcome.walletNotFound, db⟩ := by
      unfold validateCheckout; simp only [hw]
    rw [hr]
    exact ⟨fun _ => rfl, fun h => absurd h (by simp), rfl, rfl⟩
  · by_cases hlow : env.token_balance < minTargetBalance
    · have hr : validateCheckout env db sid = ⟨ValidateOutcome.insufficientFunds, db⟩ := by
        unfold validateCheckout; simp only [hw, if_pos hlow]
      rw [hr]
      exact ⟨fun _ => rfl, fun h => absurd h (by simp), rfl, rfl⟩
    · rcases hu : updateCheckoutWalletBalance db wallet.id
          (formatUnits6 env.token_balance) env.now with _ | ⟨w', db1⟩
      · have hr : validateCheckout env db sid = ⟨ValidateOutcome.walletUpdateFailed, db⟩ := by
          unfold validateCheckout; simp only [hw, if_neg hlow, hu]
        rw [hr]
        exact ⟨fun _ => rfl, fun h => absurd h (by simp), rfl, rfl⟩
      · obtain ⟨hwal, hpur, -, -, -⟩ :=
          updateCheckoutWalletBalance_some_eq db wallet.id
            (formatUnits6 env.token_balance) env.now w' db1 hu
        have hr : validateCheckout env db sid = ⟨ValidateOutcome.verified, db1⟩ := by
          unfold validateCheckout; simp only [hw, if_neg hlow, hu]
        rw [hr]
        refine ⟨fun h => absurd rfl h, fun _ => ⟨hlow, wallet, rfl, hwal⟩, ?_, hpur⟩
        rw [hwal, map_purchase_id_setWalletBalanceRow]

/-- C6 counterexample: against a wallet whose stored balance is $7, an
observed balance of $0.30 (below the $0.50 minimum target) makes validate
return the insufficient-funds response without persisting the fresh
observation: the stored balance is still $7, not $0.30, contradicting the
claim that the observation is persisted regardless of outcome. -/
theorem validateCheckout_no_persist_counterexample :
    (validateCheckout ⟨300000, 99⟩ dbA 10).outcome = ValidateOutcome.insufficientFunds ∧
    (validateCheckout ⟨300000, 99⟩ dbA 10).db.checkout_wallets.map
      CheckoutWallet.latest_usd_balance = [7] ∧
    (validateCheckout ⟨300000, 99⟩ dbA 10).db.checkout_wallets.map
      CheckoutWallet.updated_at = [0] ∧
    formatUnits6 300000 ≠ 7 :=
  ⟨rfl, rfl, rfl, by norm_num [formatUnits6]⟩

/-- C6 witness: a non-verified validate run leaves the database exactly as
it was. -/
theorem validateCheckout_frame_witness :
    (validateCheckout ⟨300000, 99⟩ dbA 10).db = dbA :=
  (validateCheckout_frame ⟨300000, 99⟩ dbA 10).1 (fun h => ValidateOutcome.noConfusion h)

/-- C3: recordUsage is atomic: on every error the returned database is the
input database (the transaction rolled back, so in particular no usage
record exists); when the purchase or its linked wallet cannot be found the
call errors with the database unchanged; and on success the usage record is
appended and the linked wallet's latest_usd_balance is decremented by
billed_amount in the same returned state, with the purchases table
untouched. -/
theorem recordUsage_atomic (db : DB) (u : UsageRecord) (now : Nat) :
    (∀ e, (recordUsage db u now).1 = Except.error e → (recordUsage db u now).2 = db) ∧
    ((getCheckoutWalletByPurchaseId db u.purchase_id = none ∨
      getCustomerPurchaseById db u.purchase_id = none) →
      (∃ e, (recordUsage db u now).1 = Except.error e) ∧ (recordUsage db u now).2 = db) ∧
    (∀ rec rep, (recordUsage db u now).1 = Except.ok (rec, rep) →
      rec = u ∧
      (recordUsage db u now).2.usage_records = db.usage_records ++ [u] ∧
      (recordUsage db u now).2.customer_purchases = db.customer_purchases ∧
      ∃ w, getCheckoutWalletByPurchaseId db u.purchase_id = some w ∧
        (recordUsage db u now).2.checkout_wallets =
          db.checkout_wallets.map (fun x =>
            if x.id == w.id then deductWalletBalanceRow x u.billed_amount now else x)) := by
  rcases hw : getCheckoutWalletByPurchaseId db u.purchase_id with _ | wallet
  · have hr : recordUsage db u now =
        (Except.error "Wallet not found for balance update", db) := by
      unfold recordUsage addUsageRecordAndDeductBalance; simp only [hw]
    rw [hr]
    exact ⟨fun _ _ => rfl, fun _ => ⟨⟨_, rfl⟩, rfl⟩,
      fun rec rep h => absurd h (by simp)⟩
  · rcases hp : getCustomerPurchaseById db u.purchase_id with _ | purchase
    · have hr : recordUsage db u now =
          (Except.error "Customer purchase not found for balance update", db) := by
        unfold recordUsage addUsageRecordAndDeductBalance; simp only [hw, hp]
      rw [hr]
      exact ⟨fun _ _ => rfl, fun _ => ⟨⟨_, rfl⟩, rfl⟩,
        fun rec rep h => absurd h (by simp)⟩
    · rcases hd : deductWalletBalance db wallet.id u.billed_amount now with _ | ⟨nb, db1⟩
      · have hr : recordUsage db u now =
            (Except.error "Customer purchase not found for balance update", db) := by
          unfold recordUsage addUsageRecordAndDeductBalance; simp only [hw, hp, hd]
        rw [hr]
        refine ⟨fun _ _ => rfl, ?_, fun rec rep h => absurd h (by simp)⟩
        intro hor
        exact ⟨⟨_, rfl⟩, rfl⟩
      · obtain ⟨⟨w0, hw0, hnb⟩, hwal, hpur, husage⟩ :=
          deductWalletBalance_some_eq db wallet.id u.billed_amount now nb db1 hd
        have hr : recordUsage db u now =
            (Except.ok (u, evalBalanceTriggers nb purchase.balance_termination_trigger
                purchase.balance_critical_trigger purchase.balance_low_trigger),
             { db1 with usage_records := db1.usage_records ++ [u] }) := by
          unfold recordUsage addUsageRecordAndDeductBalance; simp only [hw, hp, hd]
        rw [hr]
        refine ⟨fun e he => absurd he (by simp), ?_, ?_⟩
        · intro hor
          rcases hor with h | h
          · exact absurd h (by simp)
          · exact absurd h (by simp)
        · intro rec rep h
          simp only [Except.ok.injEq, Prod.mk.injEq] at h
          refine ⟨h.1.symm, by simp [husage], by simp [hpur], wallet, rfl, by simp [hwal]⟩

/-- C3 witness: against an empty database the wallet lookup fails, the call
errors, and the database is unchanged — no usage record exists. -/
theorem recordUsage_atomic_witness :
    (∃ e, (recordUsage ⟨[], [], []⟩ usageFixture 3).1 = Except.error e) ∧
    (recordUsage ⟨[], [], []⟩ usageFixture 3).2 = ⟨[], [], []⟩ :=
  (recordUsage_atomic ⟨[], [], []⟩ usageFixture 3).2.1 (Or.inl rfl)

/-- C4 amended: for the nonnegative post-buffer balances finalize produces,
the critical trigger never exceeds the low trigger; but termination ≤
critical holds exactly when the post-buffer balance lies between $0.50 and
$200 — below $0.50 (reachable, since the minimum accepted deposit of $0.50
leaves $0.10 after the buffer) and above $200 the $0.05-floored /
hundredth-scaled termination trigger strictly exceeds the critical
trigger. -/
theorem balanceTriggers_ordering (b : ℚ) (hb : 0 ≤ b) :
    balanceCriticalTrigger b ≤ balanceLowTrigger b ∧
    (1 / 2 ≤ b → b ≤ 200 → balanceTerminationTrigger b ≤ balanceCriticalTrigger b) ∧
    (b < 1 / 2 → balanceCriticalTrigger b < balanceTerminationTrigger b) ∧
    (200 < b → balanceCriticalTrigger b < balanceTerminationTrigger b) := by
  refine ⟨?_, ?_, ?_, ?_⟩ <;>
    · intros
      simp only [balanceLowTrigger, balanceCriticalTrigger, balanceTerminationTrigger,
        min_def, max_def]
      split_ifs <;> linarith

/-- C4 counterexample: a finalize at the minimum accepted deposit ($0.50
observed, $0.10 after the buffer) succeeds and creates a purchase whose
termination trigger ($0.05) strictly exceeds its critical trigger ($0.01),
violating termination ≤ critical ≤ low. -/
theorem finalize_thresholds_counterexample :
    (finalizeCheckout envMinimumDeposit dbA 10).outcome =
      FinalizeOutcome.success 77 (1 / 2) ∧
    (finalizeCheckout envMinimumDeposit dbA 10).db.customer_purchases.map
      CustomerPurchase.balance_termination_trigger = [1 / 20] ∧
    (finalizeCheckout envMinimumDeposit dbA 10).db.customer_purchases.map
      CustomerPurchase.balance_critical_trigger = [1 / 100] ∧
    ¬ ((1 : ℚ) / 20 ≤ 1 / 100) := by
  refine ⟨?_, ?_, ?_, by norm_num⟩ <;>
    norm_num [finalizeCheckout, finalizeNewPurchase, envMinimumDeposit, envAllGood, dbA,
      walletA, getCheckoutWalletByCheckoutSessionID, updateCheckoutWalletBalance,
      setWalletBalanceRow, createCustomerPurchase, purchaseInsertConflict,
      formatUnits6, minTargetBalance, gas_transfer_buffer, balanceLowTrigger,
      balanceCriticalTrigger, balanceTerminationTrigger, min_def, max_def, List.find?]

/-- C4 amended witness: at a post-buffer balance of $1 the critical trigger
is at most the low trigger. -/
theorem balanceTriggers_ordering_witness :
    balanceCriticalTrigger 1 ≤ balanceLowTrigger 1 :=
  (balanceTriggers_ordering 1 (by norm_num)).1

theorem purchaseInsertConflict_congr (dbx dby : DB) (p : CustomerPurchase)
    (h : dbx.customer_purchases = dby.customer_purchases) :
    purchaseInsertConflict dbx p = purchaseInsertConflict dby p := by
  unfold purchaseInsertConflict; rw [h]

theorem purchaseInsertConflict_false_wallet_id (db : DB) (p : CustomerPurchase)
    (h : purchaseInsertConflict db p = false) :
    ∀ q ∈ db.customer_purchases, q.wallet_id ≠ p.wallet_id := by
  intro q hq
  unfold purchaseInsertConflict at h
  simp only [List.any_eq_false, Bool.or_eq_true, beq_iff_eq, not_or] at h
  have hq2 := h q hq
  tauto

theorem finalizeCheckout_shape (env : FinalizeEnv) (db : DB) (sid : Nat) :
    ((finalizeCheckout env db sid).db.customer_purchases = db.customer_purchases ∧
     (∀ pid amt, (finalizeCheckout env db sid).outcome ≠ FinalizeOutcome.success pid amt) ∧
     (finalizeCheckout env db sid).outcome ≠ FinalizeOutcome.sweepFailed) ∨
    (∃ p : CustomerPurchase,
      p.id = env.new_purchase_id ∧
      p.balance = formatUnits6 (env.token_balance - gas_transfer_buffer) ∧
      p.balance_low_trigger = balanceLowTrigger p.balance ∧
      p.balance_critical_trigger = balanceCriticalTrigger p.balance ∧
      p.balance_termination_trigger = balanceTerminationTrigger p.balance ∧
      env.gas_result = Except.ok TxStatus.success ∧
      ¬ env.token_balance < minTargetBalance ∧
      purchaseInsertConflict db p = false ∧
      (finalizeCheckout env db sid).db.customer_purchases = db.customer_purchases ++ [p] ∧
      ((env.sweep_result = Except.ok TxStatus.success ∧
         (finalizeCheckout env db sid).outcome =
           FinalizeOutcome.success p.id (formatUnits6 env.token_balance)) ∨
       ((finalizeCheckout env db sid).outcome = FinalizeOutcome.sweepFailed ∧
         (env.sweep_result = Except.error () →
           (finalizeCheckout env db sid).alerts ≠ [])))) := by
  rcases hw : getCheckoutWalletByCheckoutSessionID db sid with _ | wallet
  · left
    have hr : finalizeCheckout env db sid = ⟨FinalizeOutcome.walletNotFound, db, []⟩ := by
      unfold finalizeCheckout; simp only [hw]
    rw [hr]
    exact ⟨rfl, by simp, by simp⟩
  · rcases hpid : wallet.purchase_id with _ | pid0
    · by_cases hlow : env.token_balance < minTargetBalance
      · left
        have hr : finalizeCheckout env db sid = ⟨FinalizeOutcome.insufficientFunds, db, []⟩ := by
          unfold finalizeCheckout; simp only [hw, hpid, if_pos hlow]
        rw [hr]
        exact ⟨rfl, by simp, by simp⟩
      · rcases hu : updateCheckoutWalletBalance db wallet.id
            (formatUnits6 (env.token_balance - gas_transfer_buffer)) env.now with _ | ⟨uw, db1⟩
        · left
          have hr : finalizeCheckout env db sid =
              ⟨FinalizeOutcome.walletUpdateFailed, db, []⟩ := by
            unfold finalizeCheckout; simp only [hw, hpid, if_neg hlow, hu]
          rw [hr]
          exact ⟨rfl, by simp, by simp⟩
        · obtain ⟨hwal1, hpur1, -, hubal, -⟩ :=
            updateCheckoutWalletBalance_some_eq db wallet.id
              (formatUnits6 (env.token_balance - gas_transfer_buffer)) env.now uw db1 hu
          rcases ho : wallet.offramp_evm_address with _ | off
          · left
            have hr : finalizeCheckout env db sid =
                ⟨FinalizeOutcome.offrampMissing, db1, []⟩ := by
              unfold finalizeCheckout; simp only [hw, hpid, if_neg hlow, hu, ho]
            rw [hr]
            exact ⟨hpur1, by simp, by simp⟩
          · rcases hg : env.gas_result with ge | gst
            · left
              have hr : finalizeCheckout env db sid =
                  ⟨FinalizeOutcome.gasTransferFailed, db1,
                   ["Failed to send gas to wallet"]⟩ := by
                unfold finalizeCheckout; simp only [hw, hpid, if_neg hlow, hu, ho, hg]
              rw [hr]
              exact ⟨hpur1, by simp, by simp⟩
            · rcases gst with _ | _
              · rcases hc : createCustomerPurchase db1
                    (finalizeNewPurchase env wallet uw sid) with ce | ⟨created, db2⟩
                · left
                  have hr : finalizeCheckout env db sid =
                      ⟨FinalizeOutcome.internalError, db1, []⟩ := by
                    unfold finalizeCheckout; simp only [hw, hpid, if_neg hlow, hu, ho, hg, hc]
                  rw [hr]
                  exact ⟨hpur1, by simp, by simp⟩
                · obtain ⟨hcreated, hpur2, -, -, hconf1⟩ :=
                    createCustomerPurchase_ok_eq db1 (finalizeNewPurchase env wallet uw sid)
                      created db2 hc
                  have hconf : purchaseInsertConflict db
                      (finalizeNewPurchase env wallet uw sid) = false := by
                    rw [← purchaseInsertConflict_congr db1 db _ hpur1]
                    exact hconf1
                  have hpurchases : db2.customer_purchases =
                      db.customer_purchases ++ [finalizeNewPurchase env wallet uw sid] := by
                    rw [hpur2, hpur1]
                  rcases hs : env.sweep_result with se | sst
                  · have hr : finalizeCheckout env db sid =
                        ⟨FinalizeOutcome.sweepFailed, db2,
                         ["Failed to transfer USDC from wallet to offramp"]⟩ := by
                      unfold finalizeCheckout
                      simp only [hw, hpid, if_neg hlow, hu, ho, hg, hc, hs]
                    rw [hr]
                    right
                    exact ⟨finalizeNewPurchase env wallet uw sid, rfl,
                      by simpa [finalizeNewPurchase] using hubal, rfl, rfl, rfl, rfl, hlow,
                      hconf, hpurchases, Or.inr ⟨rfl, fun _ => by simp⟩⟩
                  · rcases sst with _ | _
                    · have hr : finalizeCheckout env db sid =
                          ⟨FinalizeOutcome.success created.id (formatUnits6 env.token_balance),
                           db2, []⟩ := by
                        unfold finalizeCheckout
                        simp only [hw, hpid, if_neg hlow, hu, ho, hg, hc, hs]
                      rw [hr]
                      right
                      refine ⟨finalizeNewPurchase env wallet uw sid, rfl,
                        by simpa [finalizeNewPurchase] using hubal, rfl, rfl, rfl, rfl, hlow,
                        hconf, hpurchases, Or.inl ⟨rfl, ?_⟩⟩
                      rw [hcreated]
                    · have hr : finalizeCheckout env db sid =
                          ⟨FinalizeOutcome.sweepFailed, db2, []⟩ := by
                        unfold finalizeCheckout
                        simp only [hw, hpid, if_neg hlow, hu, ho, hg, hc, hs]
                      rw [hr]
                      right
                      exact ⟨finalizeNewPurchase env wallet uw sid, rfl,
                        by simpa [finalizeNewPurchase] using hubal, rfl, rfl, rfl, rfl, hlow,
                        hconf, hpurchases,
                        Or.inr ⟨rfl, fun hcontra => absurd hcontra (by simp)⟩⟩
              · left
                have hr : finalizeCheckout env db sid =
                    ⟨FinalizeOutcome.gasTransferFailed, db1,
                     ["Failed to send gas to wallet"]⟩ := by
                  unfold finalizeCheckout; simp only [hw, hpid, if_neg hlow, hu, ho, hg]
                rw [hr]
                exact ⟨hpur1, by simp, by simp⟩
    · left
      have hr : finalizeCheckout env db sid = ⟨FinalizeOutcome.alreadyLinked pid0, db, []⟩ := by
        unfold finalizeCheckout; simp only [hw, hpid]
      rw [hr]
      exact ⟨rfl, by simp, by simp⟩

/-- C1 amended: for every escrow wallet, at most one CustomerPurchase ever
references its wallet_id, preserved across every finalize run — but the
mechanism is the UNIQUE constraint on customer_purchases.wallet_id at the
insert, not wallet linkage: finalize never writes the wallet's purchase_id
(see the counterexample), so a repeat finalize against the same wallet is
not rejected by the already-linked guard; it fails at the balance check or
at the purchase insert (a unique-constraint error surfaced as an internal
error), in either case creating no second purchase. -/
theorem finalizeCheckout_preserves_walletLinkUnique (env : FinalizeEnv) (db : DB)
    (sid : Nat) (h : walletLinkUnique db) :
    walletLinkUnique (finalizeCheckout env db sid).db := by
  rcases finalizeCheckout_shape env db sid with ⟨hp, -, -⟩ |
    ⟨p, -, -, -, -, -, -, -, hconf, hp, -⟩
  · unfold walletLinkUnique
    rw [hp]
    exact h
  · unfold walletLinkUnique
    rw [hp, List.pairwise_append]
    refine ⟨h, List.pairwise_singleton _ _, ?_⟩
    intro a ha b hb
    simp only [List.mem_singleton] at hb
    rw [hb]
    exact purchaseInsertConflict_false_wallet_id db p hconf a ha

/-- C1 witness: the invariant is preserved by a successful finalize against
a database already holding one purchase. -/
theorem finalizeCheckout_preserves_walletLinkUnique_witness :
    walletLinkUnique (finalizeCheckout envAllGood dbLinked 10).db :=
  finalizeCheckout_preserves_walletLinkUnique envAllGood dbLinked 10
    (by simp [walletLinkUnique, dbLinked])

/-- C1 counterexample: a successful finalize never sets the wallet's
purchase_id — after the checkout succeeds and purchase 77 exists, the
wallet's purchase_id is still none rather than some 77; a second finalize
against the same re-funded wallet is then not rejected as an already-linked
conflict but dies at the purchase insert as an internal error, still
creating no second purchase. -/
theorem finalizeCheckout_wallet_never_linked_counterexample :
    (finalizeCheckout envAllGood dbA 10).outcome = FinalizeOutcome.success 77 12 ∧
    (finalizeCheckout envAllGood dbA 10).db.checkout_wallets.map
      CheckoutWallet.purchase_id = [none] ∧
    (finalizeCheckout envAllGood dbA 10).db.customer_purchases.map
      CustomerPurchase.id = [77] ∧
    (finalizeCheckout envSecondAttempt (finalizeCheckout envAllGood dbA 10).db 10).outcome =
      FinalizeOutcome.internalError ∧
    (finalizeCheckout envSecondAttempt
        (finalizeCheckout envAllGood dbA 10).db 10).db.customer_purchases.map
      CustomerPurchase.id = [77] := by
  have h1 : finalizeCheckout envAllGood dbA 10 =
      ⟨FinalizeOutcome.success 77 12,
       ⟨[setWalletBalanceRow walletA (58 / 5) 1000],
        [finalizeNewPurchase envAllGood walletA (setWalletBalanceRow walletA (58 / 5) 1000) 10],
        []⟩, []⟩ := by
    norm_num [finalizeCheckout, finalizeNewPurchase, envAllGood, dbA, walletA,
      getCheckoutWalletByCheckoutSessionID, updateCheckoutWalletBalance, setWalletBalanceRow,
      createCustomerPurchase, purchaseInsertConflict, formatUnits6, minTargetBalance,
      gas_transfer_buffer, List.find?]
  rw [h1]
  refine ⟨rfl, ?_, ?_, ?_, ?_⟩ <;>
    norm_num [finalizeCheckout, finalizeNewPurchase, envSecondAttempt, envAllGood,
      walletA, getCheckoutWalletByCheckoutSessionID, updateCheckoutWalletBalance,
      setWalletBalanceRow, createCustomerPurchase, purchaseInsertConflict, formatUnits6,
      minTargetBalance, gas_transfer_buffer, List.find?]

/-- C2 amended: the CustomerPurchase record is created before the sweep is
attempted: whenever finalize fails at the sweep after the balance check
passed, the operation returns an error but the purchase row already exists
in the returned database and is not rolled back; a vendor alert is raised
when the sweep throws (though not when the receipt merely reports an
on-chain revert). -/
theorem finalizeCheckout_sweep_failure_keeps_purchase (env : FinalizeEnv) (db : DB)
    (sid : Nat)
    (h : (finalizeCheckout env db sid).outcome = FinalizeOutcome.sweepFailed) :
    (∃ p ∈ (finalizeCheckout env db sid).db.customer_purchases,
       p.id = env.new_purchase_id) ∧
    (env.sweep_result = Except.error () → (finalizeCheckout env db sid).alerts ≠ []) := by
  rcases finalizeCheckout_shape env db sid with ⟨-, -, hno⟩ |
    ⟨p, hid, -, -, -, -, -, -, -, hp, hsw⟩
  · exact absurd h hno
  · refine ⟨⟨p, ?_, hid⟩, ?_⟩
    · rw [hp]; simp
    · rcases hsw with ⟨-, hout⟩ | ⟨-, halert⟩
      · rw [hout] at h
        exact absurd h (by simp)
      · exact halert

/-- C2 witness: a concrete run whose sweep throws keeps purchase 77 in the
database and raises an alert. -/
theorem finalizeCheckout_sweep_failure_keeps_purchase_witness :
    (∃ p ∈ (finalizeCheckout envSweepThrows dbA 10).db.customer_purchases,
       p.id = envSweepThrows.new_purchase_id) ∧
    (envSweepThrows.sweep_result = Except.error () →
      (finalizeCheckout envSweepThrows dbA 10).alerts ≠ []) :=
  finalizeCheckout_sweep_failure_keeps_purchase envSweepThrows dbA 10
    (by norm_num [finalizeCheckout, finalizeNewPurchase, envSweepThrows, envAllGood, dbA,
      walletA, getCheckoutWalletByCheckoutSessionID, updateCheckoutWalletBalance,
      setWalletBalanceRow, createCustomerPurchase, purchaseInsertConflict, formatUnits6,
      minTargetBalance, gas_transfer_buffer, List.find?])

/-- C2 counterexample: with the balance check passed and the sweep throwing,
finalize returns an error and raises a vendor alert, but the purchase record
(id 77) exists afterwards — contradicting the claim that no CustomerPurchase
record exists after a failed sweep. -/
theorem finalizeCheckout_purchase_survives_failed_sweep_counterexample :
    (finalizeCheckout envSweepThrows dbA 10).outcome = FinalizeOutcome.sweepFailed ∧
    (finalizeCheckout envSweepThrows dbA 10).db.customer_purchases.map
      CustomerPurchase.id = [77] ∧
    (finalizeCheckout envSweepThrows dbA 10).alerts ≠ [] := by
  refine ⟨?_, ?_, ?_⟩ <;>
    norm_num [finalizeCheckout, finalizeNewPurchase, envSweepThrows, envAllGood, dbA,
      walletA, getCheckoutWalletByCheckoutSessionID, updateCheckoutWalletBalance,
      setWalletBalanceRow, createCustomerPurchase, purchaseInsertConflict, formatUnits6,
      minTargetBalance, gas_transfer_buffer, List.find?]

/-- C5 amended: on a successful finalize the amount handed to the ERC-20
sweep is the FULL observed token balance — the $0.40 operational buffer is
deducted only from the persisted wallet balance and hence from the
purchase's recorded balance, not from the swept amount — and the gas-tank
transfer succeeded before the sweep was attempted. -/
theorem finalizeCheckout_success_sweeps_full_balance (env : FinalizeEnv) (db : DB)
    (sid : Nat) (pid : Nat) (amt : ℚ)
    (h : (finalizeCheckout env db sid).outcome = FinalizeOutcome.success pid amt) :
    amt = formatUnits6 env.token_balance ∧
    pid = env.new_purchase_id ∧
    env.gas_result = Except.ok TxStatus.success ∧
    ∃ p ∈ (finalizeCheckout env db sid).db.customer_purchases,
      p.id = pid ∧ p.balance = formatUnits6 (env.token_balance - gas_transfer_buffer) := by
  rcases finalizeCheckout_shape env db sid with ⟨-, hno, -⟩ |
    ⟨p, hid, hbal, -, -, -, hg, -, -, hp, hsw⟩
  · exact absurd h (hno pid amt)
  · rcases hsw with ⟨-, hout⟩ | ⟨hout, -⟩
    · rw [hout] at h
      simp only [FinalizeOutcome.success.injEq] at h
      obtain ⟨h1, h2⟩ := h
      refine ⟨h2.symm, h1.symm.trans hid, hg, p, ?_, h1, hbal⟩
      rw [hp]
      simp
    · rw [hout] at h
      exact absurd h (by simp)

/-- C5 witness: the successful $12 finalize swept the full $12 with gas sent
first, and recorded an $11.60 purchase balance. -/
theorem finalizeCheckout_success_sweeps_full_balance_witness :
    (12 : ℚ) = formatUnits6 envAllGood.token_balance ∧
    77 = envAllGood.new_purchase_id ∧
    envAllGood.gas_result = Except.ok TxStatus.success ∧
    ∃ p ∈ (finalizeCheckout envAllGood dbA 10).db.customer_purchases,
      p.id = 77 ∧
      p.balance = formatUnits6 (envAllGood.token_balance - gas_transfer_buffer) :=
  finalizeCheckout_success_sweeps_full_balance envAllGood dbA 10 77 12
    (by norm_num [finalizeCheckout, finalizeNewPurchase, envAllGood, dbA, walletA,
      getCheckoutWalletByCheckoutSessionID, updateCheckoutWalletBalance,
      setWalletBalanceRow, createCustomerPurchase, purchaseInsertConflict, formatUnits6,
      minTargetBalance, gas_transfer_buffer, List.find?])

/-- C5 counterexample: a $12 observed balance sweeps the full $12, not
$11.60 as the claim states — the $0.40 buffer is withheld only from the
recorded balance. -/
theorem finalizeCheckout_sweep_amount_counterexample :
    (finalizeCheckout envAllGood dbA 10).outcome = FinalizeOutcome.success 77 12 ∧
    (12 : ℚ) ≠ 12 - 2 / 5 := by
  constructor
  · norm_num [finalizeCheckout, finalizeNewPurchase, envAllGood, dbA, walletA,
      getCheckoutWalletByCheckoutSessionID, updateCheckoutWalletBalance,
      setWalletBalanceRow, createCustomerPurchase, purchaseInsertConflict, formatUnits6,
      minTargetBalance, gas_transfer_buffer, List.find?]
  · norm_num
